import Mathlib

/-!
Verification of `Silicon/TigerlakePchPkg/Include/Register/PmcRegs.h`, the
register-name header for the PCH PMC device.  Every constant below is a
direct transcription of a `#define` in that header; `BITn` follows the
EDK2 convention `BITn = 1 << n`.
-/

namespace PmcRegs

/-- EDK2 `BITn` macro: a natural number with exactly bit `n` set. -/
def BIT (n : Nat) : Nat := 1 <<< n

def BIT0 : Nat := BIT 0
def BIT1 : Nat := BIT 1
def BIT2 : Nat := BIT 2
def BIT3 : Nat := BIT 3
def BIT4 : Nat := BIT 4
def BIT5 : Nat := BIT 5
def BIT6 : Nat := BIT 6
def BIT7 : Nat := BIT 7
def BIT8 : Nat := BIT 8
def BIT9 : Nat := BIT 9
def BIT10 : Nat := BIT 10
def BIT11 : Nat := BIT 11
def BIT12 : Nat := BIT 12
def BIT13 : Nat := BIT 13
def BIT14 : Nat := BIT 14
def BIT15 : Nat := BIT 15
def BIT16 : Nat := BIT 16
def BIT17 : Nat := BIT 17
def BIT24 : Nat := BIT 24
def BIT26 : Nat := BIT 26
def BIT27 : Nat := BIT 27
def BIT31 : Nat := BIT 31

-- PMC SSRAM Registers (D20:F2)
def PCI_DEVICE_NUMBER_PCH_PMC_SSRAM : Nat := 20
def PCI_FUNCTION_NUMBER_PCH_PMC_SSRAM : Nat := 2

-- PMC Registers (D31:F2)
def PCI_DEVICE_NUMBER_PCH_PMC : Nat := 31
def PCI_FUNCTION_NUMBER_PCH_PMC : Nat := 2

def R_PMC_PWRM_TIMED_GPIO_CONTROL_0 : Nat := 0x1210
def R_PMC_PWRM_TIMED_GPIO_CONTROL_1 : Nat := 0x1310

-- ACPI and legacy I/O register offsets from ACPIBASE
def R_ACPI_IO_PM1_STS : Nat := 0x00
def B_ACPI_IO_PM1_STS_RTC_EN : Nat := BIT26
def B_ACPI_IO_PM1_STS_WAK : Nat := BIT15
def B_ACPI_IO_PM1_STS_PRBTNOR : Nat := BIT11
def B_ACPI_IO_PM1_STS_RTC : Nat := BIT10
def B_ACPI_IO_PM1_STS_PWRBTN : Nat := BIT8
def B_ACPI_IO_PM1_STS_GBL : Nat := BIT5
def B_ACPI_IO_PM1_STS_TMROF : Nat := BIT0

def B_ACPI_IO_PM1_EN_PWRBTN : Nat := BIT8

def R_ACPI_IO_PM1_CNT : Nat := 0x04
def B_ACPI_IO_PM1_CNT_SCI_EN : Nat := BIT0
def B_ACPI_IO_PM1_CNT_SLP_TYP : Nat := BIT12 ||| BIT11 ||| BIT10
def V_ACPI_IO_PM1_CNT_S0 : Nat := 0
def V_ACPI_IO_PM1_CNT_S3 : Nat := BIT12 ||| BIT10
def V_ACPI_IO_PM1_CNT_S4 : Nat := BIT12 ||| BIT11
def V_ACPI_IO_PM1_CNT_S5 : Nat := BIT12 ||| BIT11 ||| BIT10

def R_ACPI_IO_PM1_TMR : Nat := 0x08
def V_ACPI_IO_PM1_TMR_FREQUENCY : Nat := 3579545
def B_ACPI_IO_PM1_TMR_VAL : Nat := 0xFFFFFF
def V_ACPI_IO_PM1_TMR_MAX_VAL : Nat := 0x1000000

def R_ACPI_IO_SMI_EN : Nat := 0x30
def S_ACPI_IO_SMI_EN : Nat := 4
def B_ACPI_IO_SMI_EN_LEGACY_USB3 : Nat := BIT31
def B_ACPI_IO_SMI_EN_GPIO_UNLOCK_SMI : Nat := BIT27
def B_ACPI_IO_SMI_EN_LEGACY_USB2 : Nat := BIT17
def B_ACPI_IO_SMI_EN_PERIODIC : Nat := BIT14
def B_ACPI_IO_SMI_EN_TCO : Nat := BIT13
def B_ACPI_IO_SMI_EN_MCSMI : Nat := BIT11
def B_ACPI_IO_SMI_EN_BIOS_RLS : Nat := BIT7
def B_ACPI_IO_SMI_EN_SWSMI_TMR : Nat := BIT6
def B_ACPI_IO_SMI_EN_APMC : Nat := BIT5
def B_ACPI_IO_SMI_EN_ON_SLP_EN : Nat := BIT4
def B_ACPI_IO_SMI_EN_LEGACY_USB : Nat := BIT3
def B_ACPI_IO_SMI_EN_BIOS : Nat := BIT2
def B_ACPI_IO_SMI_EN_EOS : Nat := BIT1
def B_ACPI_IO_SMI_EN_GBL_SMI : Nat := BIT0
def N_ACPI_IO_SMI_EN_LEGACY_USB3 : Nat := 31
def N_ACPI_IO_SMI_EN_ESPI : Nat := 28
def N_ACPI_IO_SMI_EN_GPIO_UNLOCK : Nat := 27
def N_ACPI_IO_SMI_EN_INTEL_USB2 : Nat := 18
def N_ACPI_IO_SMI_EN_LEGACY_USB2 : Nat := 17
def N_ACPI_IO_SMI_EN_PERIODIC : Nat := 14
def N_ACPI_IO_SMI_EN_TCO : Nat := 13
def N_ACPI_IO_SMI_EN_MCSMI : Nat := 11
def N_ACPI_IO_SMI_EN_BIOS_RLS : Nat := 7
def N_ACPI_IO_SMI_EN_SWSMI_TMR : Nat := 6
def N_ACPI_IO_SMI_EN_APMC : Nat := 5
def N_ACPI_IO_SMI_EN_ON_SLP_EN : Nat := 4
def N_ACPI_IO_SMI_EN_LEGACY_USB : Nat := 3
def N_ACPI_IO_SMI_EN_BIOS : Nat := 2
def N_ACPI_IO_SMI_EN_EOS : Nat := 1
def N_ACPI_IO_SMI_EN_GBL_SMI : Nat := 0

def R_ACPI_IO_SMI_STS : Nat := 0x34
def B_ACPI_IO_SMI_STS_SMBUS : Nat := BIT16
def B_ACPI_IO_SMI_STS_PERIODIC : Nat := BIT14
def B_ACPI_IO_SMI_STS_TCO : Nat := BIT13
def B_ACPI_IO_SMI_STS_MCSMI : Nat := BIT11
def B_ACPI_IO_SMI_STS_SWSMI_TMR : Nat := BIT6
def B_ACPI_IO_SMI_STS_APM : Nat := BIT5
def B_ACPI_IO_SMI_STS_ON_SLP_EN : Nat := BIT4
def B_ACPI_IO_SMI_STS_BIOS : Nat := BIT2

def R_ACPI_IO_GPE_CNTL : Nat := 0x40
def R_ACPI_IO_OC_WDT_CTL : Nat := 0x54
def R_ACPI_IO_GPE0_STS_127_96 : Nat := 0x6C
def R_ACPI_IO_GPE0_EN_127_96 : Nat := 0x7C
def B_ACPI_IO_GPE0_EN_127_96_PME_B0 : Nat := BIT13
def B_ACPI_IO_GPE0_EN_127_96_PME : Nat := BIT11

-- TCO register I/O map
def R_TCO_IO_TCO1_STS : Nat := 0x04

-- PWRM Registers for IPC interface
def R_PMC_PWRM_IPC_CMD : Nat := 0x00
def N_PMC_PWRM_IPC_CMD_CMD_ID : Nat := 12
def N_PMC_PWRM_IPC_CMD_SIZE : Nat := 16
def N_PMC_PWRM_IPC_CMD_COMMAND : Nat := 0
def V_PMC_PWRM_IPC_SRC_CLK_PORT_MAPPING_CMD : Nat := 0xAC
def R_PMC_PWRM_IPC_STS : Nat := 0x04
def R_PMC_PWRM_IPC_WBUF0 : Nat := 0x80
def R_PMC_PWRM_IPC_WBUF1 : Nat := 0x84
def R_PMC_PWRM_IPC_WBUF2 : Nat := 0x88
def R_PMC_PWRM_IPC_WBUF3 : Nat := 0x8C
def R_PMC_PWRM_IPC_RBUF0 : Nat := 0x90
def R_PMC_PWRM_IPC_RBUF1 : Nat := 0x94
def R_PMC_PWRM_IPC_RBUF2 : Nat := 0x98
def R_PMC_PWRM_IPC_RBUF3 : Nat := 0x9C

-- PWRM Registers
def R_PMC_PWRM_GEN_PMCON_A : Nat := 0x1020
def B_PMC_PWRM_GEN_PMCON_A_GBL_RST_STS : Nat := BIT24
def B_PMC_PWRM_GEN_PMCON_A_PWR_FLR : Nat := BIT14
def B_PMC_PWRM_GEN_PMCON_A_HOST_RST_STS : Nat := BIT9

def R_PMC_PWRM_GEN_PMCON_B : Nat := 0x1024
def B_PMC_PWRM_GEN_PMCON_B_SMI_LOCK : Nat := BIT4
def B_PMC_PWRM_GEN_PMCON_B_RTC_PWR_STS : Nat := BIT2

def B_PMC_PWRM_THROT_1_VR_ALERT : Nat := BIT0

def R_PMC_PWRM_MODPHY_PM_CFG5 : Nat := 0x10D0
def R_PMC_PWRM_MODPHY_PM_CFG6 : Nat := 0x10D4
def R_PMC_PWRM_THERMAL_TSS0 : Nat := 0x1560
def B_PMC_PWRM_THERMAL_TSS0_TSR_MASK : Nat := 0x1FF
def R_PMC_PWRM_WADT_AC : Nat := 0x1800
def R_PMC_PWRM_CFG : Nat := 0x1818
def R_PMC_PWRM_SLP_S0_RESIDENCY_COUNTER : Nat := 0x193C
def R_PMC_PWRM_CFG4 : Nat := 0x18E8
def R_PMC_PWRM_1B1C : Nat := 0x1B1C
def R_PMC_PWRM_1BD0 : Nat := 0x1BD0
def R_PMC_PWRM_ST_PG_FDIS_PMC_1 : Nat := 0x1E20
def R_PMC_PWRM_NST_PG_FDIS_1 : Nat := 0x1E28

-- Low Power Mode requirements - data length (byte / bit)
def PMC_LPM_REQ_DATA_LEN : Nat := 192
def PMC_LPM_REQ_BITS_DATA_LEN : Nat := 1536

/-- The complete sequence of `#define` lines of the header, in source order,
as (macro name, value) pairs.  This records textual structure of the header
(in particular, that `B_PMC_PWRM_THROT_1_VR_ALERT` has two `#define` lines,
at lines 173 and 199 of the source). -/
def headerDefines : List (String × Nat) :=
  [ ("PCI_DEVICE_NUMBER_PCH_PMC_SSRAM", PCI_DEVICE_NUMBER_PCH_PMC_SSRAM),
    ("PCI_FUNCTION_NUMBER_PCH_PMC_SSRAM", PCI_FUNCTION_NUMBER_PCH_PMC_SSRAM),
    ("PCI_DEVICE_NUMBER_PCH_PMC", PCI_DEVICE_NUMBER_PCH_PMC),
    ("PCI_FUNCTION_NUMBER_PCH_PMC", PCI_FUNCTION_NUMBER_PCH_PMC),
    ("R_PMC_PWRM_TIMED_GPIO_CONTROL_0", R_PMC_PWRM_TIMED_GPIO_CONTROL_0),
    ("R_PMC_PWRM_TIMED_GPIO_CONTROL_1", R_PMC_PWRM_TIMED_GPIO_CONTROL_1),
    ("R_ACPI_IO_PM1_STS", R_ACPI_IO_PM1_STS),
    ("B_ACPI_IO_PM1_STS_RTC_EN", B_ACPI_IO_PM1_STS_RTC_EN),
    ("B_ACPI_IO_PM1_STS_WAK", B_ACPI_IO_PM1_STS_WAK),
    ("B_ACPI_IO_PM1_STS_PRBTNOR", B_ACPI_IO_PM1_STS_PRBTNOR),
    ("B_ACPI_IO_PM1_STS_RTC", B_ACPI_IO_PM1_STS_RTC),
    ("B_ACPI_IO_PM1_STS_PWRBTN", B_ACPI_IO_PM1_STS_PWRBTN),
    ("B_ACPI_IO_PM1_STS_GBL", B_ACPI_IO_PM1_STS_GBL),
    ("B_ACPI_IO_PM1_STS_TMROF", B_ACPI_IO_PM1_STS_TMROF),
    ("B_ACPI_IO_PM1_EN_PWRBTN", B_ACPI_IO_PM1_EN_PWRBTN),
    ("R_ACPI_IO_PM1_CNT", R_ACPI_IO_PM1_CNT),
    ("B_ACPI_IO_PM1_CNT_SCI_EN", B_ACPI_IO_PM1_CNT_SCI_EN),
    ("B_ACPI_IO_PM1_CNT_SLP_TYP", B_ACPI_IO_PM1_CNT_SLP_TYP),
    ("V_ACPI_IO_PM1_CNT_S0", V_ACPI_IO_PM1_CNT_S0),
    ("V_ACPI_IO_PM1_CNT_S3", V_ACPI_IO_PM1_CNT_S3),
    ("V_ACPI_IO_PM1_CNT_S4", V_ACPI_IO_PM1_CNT_S4),
    ("V_ACPI_IO_PM1_CNT_S5", V_ACPI_IO_PM1_CNT_S5),
    ("R_ACPI_IO_PM1_TMR", R_ACPI_IO_PM1_TMR),
    ("V_ACPI_IO_PM1_TMR_FREQUENCY", V_ACPI_IO_PM1_TMR_FREQUENCY),
    ("B_ACPI_IO_PM1_TMR_VAL", B_ACPI_IO_PM1_TMR_VAL),
    ("V_ACPI_IO_PM1_TMR_MAX_VAL", V_ACPI_IO_PM1_TMR_MAX_VAL),
    ("R_ACPI_IO_SMI_EN", R_ACPI_IO_SMI_EN),
    ("S_ACPI_IO_SMI_EN", S_ACPI_IO_SMI_EN),
    ("B_ACPI_IO_SMI_EN_LEGACY_USB3", B_ACPI_IO_SMI_EN_LEGACY_USB3),
    ("B_ACPI_IO_SMI_EN_GPIO_UNLOCK_SMI", B_ACPI_IO_SMI_EN_GPIO_UNLOCK_SMI),
    ("B_ACPI_IO_SMI_EN_LEGACY_USB2", B_ACPI_IO_SMI_EN_LEGACY_USB2),
    ("B_ACPI_IO_SMI_EN_PERIODIC", B_ACPI_IO_SMI_EN_PERIODIC),
    ("B_ACPI_IO_SMI_EN_TCO", B_ACPI_IO_SMI_EN_TCO),
    ("B_ACPI_IO_SMI_EN_MCSMI", B_ACPI_IO_SMI_EN_MCSMI),
    ("B_ACPI_IO_SMI_EN_BIOS_RLS", B_ACPI_IO_SMI_EN_BIOS_RLS),
    ("B_ACPI_IO_SMI_EN_SWSMI_TMR", B_ACPI_IO_SMI_EN_SWSMI_TMR),
    ("B_ACPI_IO_SMI_EN_APMC", B_ACPI_IO_SMI_EN_APMC),
    ("B_ACPI_IO_SMI_EN_ON_SLP_EN", B_ACPI_IO_SMI_EN_ON_SLP_EN),
    ("B_ACPI_IO_SMI_EN_LEGACY_USB", B_ACPI_IO_SMI_EN_LEGACY_USB),
    ("B_ACPI_IO_SMI_EN_BIOS", B_ACPI_IO_SMI_EN_BIOS),
    ("B_ACPI_IO_SMI_EN_EOS", B_ACPI_IO_SMI_EN_EOS),
    ("B_ACPI_IO_SMI_EN_GBL_SMI", B_ACPI_IO_SMI_EN_GBL_SMI),
    ("N_ACPI_IO_SMI_EN_LEGACY_USB3", N_ACPI_IO_SMI_EN_LEGACY_USB3),
    ("N_ACPI_IO_SMI_EN_ESPI", N_ACPI_IO_SMI_EN_ESPI),
    ("N_ACPI_IO_SMI_EN_GPIO_UNLOCK", N_ACPI_IO_SMI_EN_GPIO_UNLOCK),
    ("N_ACPI_IO_SMI_EN_INTEL_USB2", N_ACPI_IO_SMI_EN_INTEL_USB2),
    ("N_ACPI_IO_SMI_EN_LEGACY_USB2", N_ACPI_IO_SMI_EN_LEGACY_USB2),
    ("N_ACPI_IO_SMI_EN_PERIODIC", N_ACPI_IO_SMI_EN_PERIODIC),
    ("N_ACPI_IO_SMI_EN_TCO", N_ACPI_IO_SMI_EN_TCO),
    ("N_ACPI_IO_SMI_EN_MCSMI", N_ACPI_IO_SMI_EN_MCSMI),
    ("N_ACPI_IO_SMI_EN_BIOS_RLS", N_ACPI_IO_SMI_EN_BIOS_RLS),
    ("N_ACPI_IO_SMI_EN_SWSMI_TMR", N_ACPI_IO_SMI_EN_SWSMI_TMR),
    ("N_ACPI_IO_SMI_EN_APMC", N_ACPI_IO_SMI_EN_APMC),
    ("N_ACPI_IO_SMI_EN_ON_SLP_EN", N_ACPI_IO_SMI_EN_ON_SLP_EN),
    ("N_ACPI_IO_SMI_EN_LEGACY_USB", N_ACPI_IO_SMI_EN_LEGACY_USB),
    ("N_ACPI_IO_SMI_EN_BIOS", N_ACPI_IO_SMI_EN_BIOS),
    ("N_ACPI_IO_SMI_EN_EOS", N_ACPI_IO_SMI_EN_EOS),
    ("N_ACPI_IO_SMI_EN_GBL_SMI", N_ACPI_IO_SMI_EN_GBL_SMI),
    ("R_ACPI_IO_SMI_STS", R_ACPI_IO_SMI_STS),
    ("B_ACPI_IO_SMI_STS_SMBUS", B_ACPI_IO_SMI_STS_SMBUS),
    ("B_ACPI_IO_SMI_STS_PERIODIC", B_ACPI_IO_SMI_STS_PERIODIC),
    ("B_ACPI_IO_SMI_STS_TCO", B_ACPI_IO_SMI_STS_TCO),
    ("B_ACPI_IO_SMI_STS_MCSMI", B_ACPI_IO_SMI_STS_MCSMI),
    ("B_ACPI_IO_SMI_STS_SWSMI_TMR", B_ACPI_IO_SMI_STS_SWSMI_TMR),
    ("B_ACPI_IO_SMI_STS_APM", B_ACPI_IO_SMI_STS_APM),
    ("B_ACPI_IO_SMI_STS_ON_SLP_EN", B_ACPI_IO_SMI_STS_ON_SLP_EN),
    ("B_ACPI_IO_SMI_STS_BIOS", B_ACPI_IO_SMI_STS_BIOS),
    ("R_ACPI_IO_GPE_CNTL", R_ACPI_IO_GPE_CNTL),
    ("R_ACPI_IO_OC_WDT_CTL", R_ACPI_IO_OC_WDT_CTL),
    ("R_ACPI_IO_GPE0_STS_127_96", R_ACPI_IO_GPE0_STS_127_96),
    ("R_ACPI_IO_GPE0_EN_127_96", R_ACPI_IO_GPE0_EN_127_96),
    ("B_ACPI_IO_GPE0_EN_127_96_PME_B0", B_ACPI_IO_GPE0_EN_127_96_PME_B0),
    ("B_ACPI_IO_GPE0_EN_127_96_PME", B_ACPI_IO_GPE0_EN_127_96_PME),
    ("R_TCO_IO_TCO1_STS", R_TCO_IO_TCO1_STS),
    ("R_PMC_PWRM_IPC_CMD", R_PMC_PWRM_IPC_CMD),
    ("N_PMC_PWRM_IPC_CMD_CMD_ID", N_PMC_PWRM_IPC_CMD_CMD_ID),
    ("N_PMC_PWRM_IPC_CMD_SIZE", N_PMC_PWRM_IPC_CMD_SIZE),
    ("N_PMC_PWRM_IPC_CMD_COMMAND", N_PMC_PWRM_IPC_CMD_COMMAND),
    ("V_PMC_PWRM_IPC_SRC_CLK_PORT_MAPPING_CMD", V_PMC_PWRM_IPC_SRC_CLK_PORT_MAPPING_CMD),
    ("R_PMC_PWRM_IPC_STS", R_PMC_PWRM_IPC_STS),
    ("R_PMC_PWRM_IPC_WBUF0", R_PMC_PWRM_IPC_WBUF0),
    ("R_PMC_PWRM_IPC_WBUF1", R_PMC_PWRM_IPC_WBUF1),
    ("R_PMC_PWRM_IPC_WBUF2", R_PMC_PWRM_IPC_WBUF2),
    ("R_PMC_PWRM_IPC_WBUF3", R_PMC_PWRM_IPC_WBUF3),
    ("R_PMC_PWRM_IPC_RBUF0", R_PMC_PWRM_IPC_RBUF0),
    ("R_PMC_PWRM_IPC_RBUF1", R_PMC_PWRM_IPC_RBUF1),
    ("R_PMC_PWRM_IPC_RBUF2", R_PMC_PWRM_IPC_RBUF2),
    ("R_PMC_PWRM_IPC_RBUF3", R_PMC_PWRM_IPC_RBUF3),
    ("R_PMC_PWRM_GEN_PMCON_A", R_PMC_PWRM_GEN_PMCON_A),
    ("B_PMC_PWRM_GEN_PMCON_A_GBL_RST_STS", B_PMC_PWRM_GEN_PMCON_A_GBL_RST_STS),
    ("B_PMC_PWRM_GEN_PMCON_A_PWR_FLR", B_PMC_PWRM_GEN_PMCON_A_PWR_FLR),
    ("B_PMC_PWRM_GEN_PMCON_A_HOST_RST_STS", B_PMC_PWRM_GEN_PMCON_A_HOST_RST_STS),
    ("R_PMC_PWRM_GEN_PMCON_B", R_PMC_PWRM_GEN_PMCON_B),
    ("B_PMC_PWRM_GEN_PMCON_B_SMI_LOCK", B_PMC_PWRM_GEN_PMCON_B_SMI_LOCK),
    ("B_PMC_PWRM_GEN_PMCON_B_RTC_PWR_STS", B_PMC_PWRM_GEN_PMCON_B_RTC_PWR_STS),
    ("B_PMC_PWRM_THROT_1_VR_ALERT", B_PMC_PWRM_THROT_1_VR_ALERT),
    ("R_PMC_PWRM_MODPHY_PM_CFG5", R_PMC_PWRM_MODPHY_PM_CFG5),
    ("R_PMC_PWRM_MODPHY_PM_CFG6", R_PMC_PWRM_MODPHY_PM_CFG6),
    ("R_PMC_PWRM_THERMAL_TSS0", R_PMC_PWRM_THERMAL_TSS0),
    ("B_PMC_PWRM_THERMAL_TSS0_TSR_MASK", B_PMC_PWRM_THERMAL_TSS0_TSR_MASK),
    ("R_PMC_PWRM_WADT_AC", R_PMC_PWRM_WADT_AC),
    ("R_PMC_PWRM_CFG", R_PMC_PWRM_CFG),
    ("R_PMC_PWRM_SLP_S0_RESIDENCY_COUNTER", R_PMC_PWRM_SLP_S0_RESIDENCY_COUNTER),
    ("R_PMC_PWRM_CFG4", R_PMC_PWRM_CFG4),
    ("R_PMC_PWRM_1B1C", R_PMC_PWRM_1B1C),
    ("R_PMC_PWRM_1BD0", R_PMC_PWRM_1BD0),
    ("B_PMC_PWRM_THROT_1_VR_ALERT", B_PMC_PWRM_THROT_1_VR_ALERT),
    ("R_PMC_PWRM_ST_PG_FDIS_PMC_1", R_PMC_PWRM_ST_PG_FDIS_PMC_1),
    ("R_PMC_PWRM_NST_PG_FDIS_1", R_PMC_PWRM_NST_PG_FDIS_1),
    ("PMC_LPM_REQ_DATA_LEN", PMC_LPM_REQ_DATA_LEN),
    ("PMC_LPM_REQ_BITS_DATA_LEN", PMC_LPM_REQ_BITS_DATA_LEN) ]

/-- Number of `#define` lines of the header whose macro name is `s`. -/
def countDefines (s : String) : Nat :=
  (headerDefines.filter (fun p => p.1 == s)).length

/-- The field masks of the PM1_STS register, in header order. -/
def pm1StsMasks : List Nat :=
  [ B_ACPI_IO_PM1_STS_RTC_EN, B_ACPI_IO_PM1_STS_WAK, B_ACPI_IO_PM1_STS_PRBTNOR,
    B_ACPI_IO_PM1_STS_RTC, B_ACPI_IO_PM1_STS_PWRBTN, B_ACPI_IO_PM1_STS_GBL,
    B_ACPI_IO_PM1_STS_TMROF ]

/-- The field masks of the SMI_EN register, in header order. -/
def smiEnMasks : List Nat :=
  [ B_ACPI_IO_SMI_EN_LEGACY_USB3, B_ACPI_IO_SMI_EN_GPIO_UNLOCK_SMI,
    B_ACPI_IO_SMI_EN_LEGACY_USB2, B_ACPI_IO_SMI_EN_PERIODIC,
    B_ACPI_IO_SMI_EN_TCO, B_ACPI_IO_SMI_EN_MCSMI, B_ACPI_IO_SMI_EN_BIOS_RLS,
    B_ACPI_IO_SMI_EN_SWSMI_TMR, B_ACPI_IO_SMI_EN_APMC,
    B_ACPI_IO_SMI_EN_ON_SLP_EN, B_ACPI_IO_SMI_EN_LEGACY_USB,
    B_ACPI_IO_SMI_EN_BIOS, B_ACPI_IO_SMI_EN_EOS, B_ACPI_IO_SMI_EN_GBL_SMI ]

/-- `disjointMasks l` is `true` iff the bitwise AND of any two distinct
entries of `l` is zero. -/
def disjointMasks : List Nat → Bool
  | [] => true
  | m :: rest => rest.all (fun x => m &&& x == 0) && disjointMasks rest

end PmcRegs

namespace PmcRegs

/-- Claim C1: for every SMI_EN field that has both a bit-mask constant and a
bit-position constant, the mask equals `1 <<< index` (the position is the
log2 of the mask), for all fourteen such pairs of the header. -/
theorem smi_en_mask_eq_one_shl_position :
    B_ACPI_IO_SMI_EN_LEGACY_USB3 = 1 <<< N_ACPI_IO_SMI_EN_LEGACY_USB3 ∧
    B_ACPI_IO_SMI_EN_GPIO_UNLOCK_SMI = 1 <<< N_ACPI_IO_SMI_EN_GPIO_UNLOCK ∧
    B_ACPI_IO_SMI_EN_LEGACY_USB2 = 1 <<< N_ACPI_IO_SMI_EN_LEGACY_USB2 ∧
    B_ACPI_IO_SMI_EN_PERIODIC = 1 <<< N_ACPI_IO_SMI_EN_PERIODIC ∧
    B_ACPI_IO_SMI_EN_TCO = 1 <<< N_ACPI_IO_SMI_EN_TCO ∧
    B_ACPI_IO_SMI_EN_MCSMI = 1 <<< N_ACPI_IO_SMI_EN_MCSMI ∧
    B_ACPI_IO_SMI_EN_BIOS_RLS = 1 <<< N_ACPI_IO_SMI_EN_BIOS_RLS ∧
    B_ACPI_IO_SMI_EN_SWSMI_TMR = 1 <<< N_ACPI_IO_SMI_EN_SWSMI_TMR ∧
    B_ACPI_IO_SMI_EN_APMC = 1 <<< N_ACPI_IO_SMI_EN_APMC ∧
    B_ACPI_IO_SMI_EN_ON_SLP_EN = 1 <<< N_ACPI_IO_SMI_EN_ON_SLP_EN ∧
    B_ACPI_IO_SMI_EN_LEGACY_USB = 1 <<< N_ACPI_IO_SMI_EN_LEGACY_USB ∧
    B_ACPI_IO_SMI_EN_BIOS = 1 <<< N_ACPI_IO_SMI_EN_BIOS ∧
    B_ACPI_IO_SMI_EN_EOS = 1 <<< N_ACPI_IO_SMI_EN_EOS ∧
    B_ACPI_IO_SMI_EN_GBL_SMI = 1 <<< N_ACPI_IO_SMI_EN_GBL_SMI := by
  decide

/-- Claim C2: `R_ACPI_IO_PM1_CNT = 0x04`, `V_ACPI_IO_PM1_CNT_S5 = 0x1C00`,
`B_ACPI_IO_PM1_CNT_SLP_TYP = 0x1C00`, and masking the S5 value with the
SLP_TYP field mask recovers exactly the S5 value. -/
theorem pm1_cnt_s5_mask_roundtrip :
    R_ACPI_IO_PM1_CNT = 0x04 ∧
    V_ACPI_IO_PM1_CNT_S5 = 0x1C00 ∧
    B_ACPI_IO_PM1_CNT_SLP_TYP = 0x1C00 ∧
    V_ACPI_IO_PM1_CNT_S5 &&& B_ACPI_IO_PM1_CNT_SLP_TYP = V_ACPI_IO_PM1_CNT_S5 := by
  decide

/-- Claim C3: `V_ACPI_IO_PM1_TMR_MAX_VAL = B_ACPI_IO_PM1_TMR_VAL + 1`, and
the timer value mask is a contiguous run of exactly 24 set bits starting at
bit 0 (bit `i` is set iff `i < 24`). -/
theorem pm1_tmr_24bit_overflow :
    V_ACPI_IO_PM1_TMR_MAX_VAL = B_ACPI_IO_PM1_TMR_VAL + 1 ∧
    B_ACPI_IO_PM1_TMR_VAL = 2 ^ 24 - 1 ∧
    ∀ i : Nat, B_ACPI_IO_PM1_TMR_VAL.testBit i = decide (i < 24) := by
  refine ⟨by decide, by decide, fun i => ?_⟩
  have h : B_ACPI_IO_PM1_TMR_VAL = 2 ^ 24 - 1 := by decide
  rw [h]
  exact Nat.testBit_two_pow_sub_one 24 i

/-- Claim C4: each encoded sleep-type value (S0, S3, S4, S5) lies entirely
within the SLP_TYP field mask, so writing it into the field and reading back
through the mask yields the same value. -/
theorem slp_typ_encoded_values_within_mask :
    V_ACPI_IO_PM1_CNT_S0 &&& B_ACPI_IO_PM1_CNT_SLP_TYP = V_ACPI_IO_PM1_CNT_S0 ∧
    V_ACPI_IO_PM1_CNT_S3 &&& B_ACPI_IO_PM1_CNT_SLP_TYP = V_ACPI_IO_PM1_CNT_S3 ∧
    V_ACPI_IO_PM1_CNT_S4 &&& B_ACPI_IO_PM1_CNT_SLP_TYP = V_ACPI_IO_PM1_CNT_S4 ∧
    V_ACPI_IO_PM1_CNT_S5 &&& B_ACPI_IO_PM1_CNT_SLP_TYP = V_ACPI_IO_PM1_CNT_S5 := by
  decide

/-- Claim C5: the named field masks of the PM1_STS register are pairwise
disjoint, and the named field masks of the SMI_EN register are pairwise
disjoint (bitwise AND of any two distinct masks is zero). -/
theorem pm1_sts_and_smi_en_masks_pairwise_disjoint :
    disjointMasks pm1StsMasks = true ∧ disjointMasks smiEnMasks = true := by
  decide

/-- Claim C6 counterexample: the header does not contain a single definition
of `B_PMC_PWRM_THROT_1_VR_ALERT`; it contains two `#define` lines for that
name (source lines 173 and 199), so the definition count is 2, not 1. -/
theorem throt_1_vr_alert_not_defined_once :
    countDefines "B_PMC_PWRM_THROT_1_VR_ALERT" = 2 ∧
    countDefines "B_PMC_PWRM_THROT_1_VR_ALERT" ≠ 1 := by
  decide

/-- Claim C6 (amended): `B_PMC_PWRM_THROT_1_VR_ALERT` is defined twice in
the header, and the duplicate definitions agree: every `#define` line for
that name gives the identical value `BIT0`, so the two definitions collapse
to one constant with no value conflict. -/
theorem throt_1_vr_alert_duplicate_defines_agree :
    countDefines "B_PMC_PWRM_THROT_1_VR_ALERT" = 2 ∧
    (headerDefines.filter (fun p => p.1 == "B_PMC_PWRM_THROT_1_VR_ALERT")).all
      (fun p => p.2 == BIT0) = true := by
  decide

/-- Claim C7: the PCI locator constants place the main PMC at device 31
function 2 and the companion SSRAM function at device 20 function 2. -/
theorem pmc_pci_device_function_numbers :
    PCI_DEVICE_NUMBER_PCH_PMC = 31 ∧ PCI_FUNCTION_NUMBER_PCH_PMC = 2 ∧
    PCI_DEVICE_NUMBER_PCH_PMC_SSRAM = 20 ∧
    PCI_FUNCTION_NUMBER_PCH_PMC_SSRAM = 2 := by
  decide

/-- Claim C8: the SMI_EN register size constant is 4 bytes (32 bits), and
every SMI_EN field mask lies within `[0, 2^32 - 1]`. -/
theorem smi_en_masks_within_register_width :
    S_ACPI_IO_SMI_EN = 4 ∧
    ∀ m ∈ smiEnMasks, m ≤ 2 ^ (8 * S_ACPI_IO_SMI_EN) - 1 := by
  exact ⟨by decide, by decide⟩

/-- Claim C8 witness: the theorem applied to the concrete mask
`B_ACPI_IO_SMI_EN_LEGACY_USB3`, the largest SMI_EN field mask. -/
theorem smi_en_masks_within_register_width_witness :
    B_ACPI_IO_SMI_EN_LEGACY_USB3 ∈ smiEnMasks ∧
    B_ACPI_IO_SMI_EN_LEGACY_USB3 ≤ 2 ^ (8 * S_ACPI_IO_SMI_EN) - 1 :=
  ⟨by decide,
   smi_en_masks_within_register_width.2 B_ACPI_IO_SMI_EN_LEGACY_USB3 (by decide)⟩

/-- Claim C9: the four encoded sleep-type values S0 (0), S3 (BIT12|BIT10),
S4 (BIT12|BIT11) and S5 (BIT12|BIT11|BIT10) are pairwise distinct, so a
value read from the SLP_TYP field decodes to at most one sleep state. -/
theorem slp_typ_encoded_values_pairwise_distinct :
    V_ACPI_IO_PM1_CNT_S0 ≠ V_ACPI_IO_PM1_CNT_S3 ∧
    V_ACPI_IO_PM1_CNT_S0 ≠ V_ACPI_IO_PM1_CNT_S4 ∧
    V_ACPI_IO_PM1_CNT_S0 ≠ V_ACPI_IO_PM1_CNT_S5 ∧
    V_ACPI_IO_PM1_CNT_S3 ≠ V_ACPI_IO_PM1_CNT_S4 ∧
    V_ACPI_IO_PM1_CNT_S3 ≠ V_ACPI_IO_PM1_CNT_S5 ∧
    V_ACPI_IO_PM1_CNT_S4 ≠ V_ACPI_IO_PM1_CNT_S5 := by
  decide

/-- Claim C10: the Low Power Mode requirements bit-length constant (1536)
is exactly eight times the byte-length constant (192). -/
theorem lpm_req_bit_len_eq_eight_times_byte_len :
    PMC_LPM_REQ_BITS_DATA_LEN = 8 * PMC_LPM_REQ_DATA_LEN ∧
    PMC_LPM_REQ_DATA_LEN = 192 ∧ PMC_LPM_REQ_BITS_DATA_LEN = 1536 := by
  decide

end PmcRegs
